import Mathlib

/-!
Verification development for the LuliReader icon-generation scripts
(`generate_icons.py` and `assets/icon/create_icon.py`).

The scripts are shallowly embedded as follows.

* A PIL `RGBA` image is a record of a width, a height and a total pixel
  function `Nat → Nat → RGBA`.  `Image.new('RGBA', (w, h), c)` becomes
  `newImage w h c`.
* Each PIL drawing primitive (`rectangle`, `ellipse`, `arc`, `line`) only
  repaints in-bounds pixels whose (integer) coordinate satisfies a decidable
  geometric predicate over `ℚ`; everything else — the dimensions in
  particular — is left untouched, exactly as in PIL.  The rasterization
  predicates use exact rational arithmetic (the decimal constants of the
  source, such as `0.08`, are the rationals `8/100`); the angle test for
  `arc` is exact on the multiples of 45° that the scripts use, via an
  octant-wise rational pseudo-angle.  The coordinates PIL computes with
  Python ints (or int-valued floats) are carried in `ℤ`, so that Python's
  subtraction on small sizes is represented faithfully.
* The file system is a map `String → Option FileData`, where a file is a
  saved PNG (`FileData.png`), a parsed `Contents.json` manifest
  (`FileData.manifest`) or an opaque blob (`FileData.raw`).  `json.load`
  failures (missing file / non-JSON content) are the `Except PyErr` errors.
  Generator functions additionally return the list of `(path, data)` writes
  they performed, in order.
* Python's `str.replace` is `pyReplace` (all non-overlapping occurrences,
  left to right), implemented by structural recursion on a fuel bounded by
  the string length so that it reduces definitionally.
-/

/-- An RGBA color, four 0–255 channels. -/
structure RGBA where
  r : Nat
  g : Nat
  b : Nat
  a : Nat
deriving DecidableEq

/-- A PIL image: dimensions plus a total pixel map.  Pixels outside the
bounds are never painted by the draw primitives. -/
@[ext]
structure Image where
  width : Nat
  height : Nat
  pixel : Nat → Nat → RGBA

/-- `Image.new('RGBA', (w, h), c)`. -/
def newImage (w h : Nat) (c : RGBA) : Image :=
  ⟨w, h, fun _ _ => c⟩

/-- Repaint every in-bounds pixel satisfying `p` with the color `c`.
All PIL draw primitives are instances of this. -/
def drawPred (img : Image) (p : ℚ → ℚ → Prop) [∀ u v, Decidable (p u v)]
    (c : RGBA) : Image :=
  { img with
    pixel := fun x y =>
      if x < img.width ∧ y < img.height ∧ p (x : ℚ) (y : ℚ) then c
      else img.pixel x y }

/-- Membership in the closed rectangle `[(x0, y0), (x1, y1)]` (PIL's
`rectangle` fill includes both corners). -/
abbrev inClosedRect (x0 y0 x1 y1 px py : ℚ) : Prop :=
  x0 ≤ px ∧ px ≤ x1 ∧ y0 ≤ py ∧ py ≤ y1

/-- Membership in the filled ellipse inscribed in the bounding box
`[x0, y0, x1, y1]`, written without divisions by the radii. -/
abbrev inEllipse (x0 y0 x1 y1 px py : ℚ) : Prop :=
  ((px - (x0 + x1) / 2) * ((y1 - y0) / 2)) * ((px - (x0 + x1) / 2) * ((y1 - y0) / 2)) +
      ((py - (y0 + y1) / 2) * ((x1 - x0) / 2)) * ((py - (y0 + y1) / 2) * ((x1 - x0) / 2)) ≤
    (((x1 - x0) / 2) * ((y1 - y0) / 2)) * (((x1 - x0) / 2) * ((y1 - y0) / 2))

/-- Strict membership in the ellipse of the box shrunk inward by the stroke
width `w` (PIL draws `arc` strokes inward from the outer radius); empty when
the stroke swallows the whole radius. -/
abbrev inInnerDisk (x0 y0 x1 y1 w px py : ℚ) : Prop :=
  w < (x1 - x0) / 2 ∧ w < (y1 - y0) / 2 ∧
    ((px - (x0 + x1) / 2) * ((y1 - y0) / 2 - w)) * ((px - (x0 + x1) / 2) * ((y1 - y0) / 2 - w)) +
        ((py - (y0 + y1) / 2) * ((x1 - x0) / 2 - w)) * ((py - (y0 + y1) / 2) * ((x1 - x0) / 2 - w)) <
      (((x1 - x0) / 2 - w) * ((y1 - y0) / 2 - w)) * (((x1 - x0) / 2 - w) * ((y1 - y0) / 2 - w))

/-- Octant-wise rational pseudo-angle for a direction `(dx, dy)` in PIL's
frame (angles clockwise from 3 o'clock, y pointing down).  It is monotone in
the angle, maps the 45° multiples `0°, 45°, …, 315°` to `0, 1, …, 7`, and is
`0` on the zero vector.  `ℚ` division by zero is `0`, which only affects the
zero vector. -/
def octPseudo (dx dy : ℚ) : ℚ :=
  if 0 ≤ dy then
    if 0 ≤ dx then (if dy ≤ dx then dy / dx else 2 - dx / dy)
    else (if -dx ≤ dy then 2 + (-dx) / dy else 4 - dy / (-dx))
  else
    if dx ≤ 0 then (if -dy ≤ -dx then 4 + (-dy) / (-dx) else 6 - (-dx) / (-dy))
    else (if dx ≤ -dy then 6 + dx / (-dy) else 8 - (-dy) / dx)

/-- Pseudo-angle of an angle given in degrees; exact for the multiples of
45° that the scripts pass to `arc` (`-45`, `225`, `45`, `135`). -/
abbrev degPseudo (d : Int) : ℚ :=
  ((d % 360 : Int) : ℚ) / 45

/-- The direction `(dx, dy)` lies in the (cyclic) angle range from `sa` to
`ea` degrees, PIL orientation. -/
abbrev inAngleRange (sa ea : Int) (dx dy : ℚ) : Prop :=
  (degPseudo sa ≤ degPseudo ea ∧
      degPseudo sa ≤ octPseudo dx dy ∧ octPseudo dx dy ≤ degPseudo ea) ∨
    (degPseudo ea < degPseudo sa ∧
      (degPseudo sa ≤ octPseudo dx dy ∨ octPseudo dx dy ≤ degPseudo ea))

/-- Membership in the stroked arc of the bounding box `[x0, y0, x1, y1]`
between the angles `sa` and `ea` (degrees) with stroke width `w`. -/
abbrev inArc (x0 y0 x1 y1 : ℚ) (sa ea : Int) (w px py : ℚ) : Prop :=
  inEllipse x0 y0 x1 y1 px py ∧ ¬ inInnerDisk x0 y0 x1 y1 w px py ∧
    inAngleRange sa ea (px - (x0 + x1) / 2) (py - (y0 + y1) / 2)

/-- Within distance `w/2` of the segment `(x1, y1)–(x2, y2)`, by squared
distances scaled to avoid division. -/
abbrev nearSegment (x1 y1 x2 y2 w px py : ℚ) : Prop :=
  ((x2 - x1) * (x2 - x1) + (y2 - y1) * (y2 - y1) = 0 ∧
      (px - x1) * (px - x1) + (py - y1) * (py - y1) ≤ (w / 2) * (w / 2)) ∨
    (0 < (x2 - x1) * (x2 - x1) + (y2 - y1) * (y2 - y1) ∧
      ((px - x1) * ((x2 - x1) * (x2 - x1) + (y2 - y1) * (y2 - y1)) -
            (x2 - x1) * max 0 (min ((x2 - x1) * (x2 - x1) + (y2 - y1) * (y2 - y1)) ((px - x1) * (x2 - x1) + (py - y1) * (y2 - y1)))) *
          ((px - x1) * ((x2 - x1) * (x2 - x1) + (y2 - y1) * (y2 - y1)) -
            (x2 - x1) * max 0 (min ((x2 - x1) * (x2 - x1) + (y2 - y1) * (y2 - y1)) ((px - x1) * (x2 - x1) + (py - y1) * (y2 - y1)))) +
        ((py - y1) * ((x2 - x1) * (x2 - x1) + (y2 - y1) * (y2 - y1)) -
            (y2 - y1) * max 0 (min ((x2 - x1) * (x2 - x1) + (y2 - y1) * (y2 - y1)) ((px - x1) * (x2 - x1) + (py - y1) * (y2 - y1)))) *
          ((py - y1) * ((x2 - x1) * (x2 - x1) + (y2 - y1) * (y2 - y1)) -
            (y2 - y1) * max 0 (min ((x2 - x1) * (x2 - x1) + (y2 - y1) * (y2 - y1)) ((px - x1) * (x2 - x1) + (py - y1) * (y2 - y1)))) ≤
      (w / 2) * (w / 2) * (((x2 - x1) * (x2 - x1) + (y2 - y1) * (y2 - y1)) * ((x2 - x1) * (x2 - x1) + (y2 - y1) * (y2 - y1))))

/-- `draw.rectangle([(x0, y0), (x1, y1)], fill=c)`. -/
def drawRectangle (img : Image) (x0 y0 x1 y1 : ℚ) (c : RGBA) : Image :=
  drawPred img (fun px py => inClosedRect x0 y0 x1 y1 px py) c

/-- `draw.ellipse([x0, y0, x1, y1], fill=c)`. -/
def drawEllipse (img : Image) (x0 y0 x1 y1 : ℚ) (c : RGBA) : Image :=
  drawPred img (fun px py => inEllipse x0 y0 x1 y1 px py) c

/-- `draw.arc([x0, y0, x1, y1], sa, ea, fill=c, width=w)`. -/
def drawArc (img : Image) (x0 y0 x1 y1 : ℚ) (sa ea : Int) (w : ℚ) (c : RGBA) : Image :=
  drawPred img (fun px py => inArc x0 y0 x1 y1 sa ea w px py) c

/-- `draw.line([x1, y1, x2, y2], fill=c, width=w)`. -/
def drawLine (img : Image) (x1 y1 x2 y2 : ℚ) (c : RGBA) (w : ℚ) : Image :=
  drawPred img (fun px py => nearSegment x1 y1 x2 y2 w px py) c

/-- Python's `int()` on a rational value: truncation toward zero. -/
def pyInt (q : ℚ) : ℤ :=
  if q < 0 then -⌊-q⌋ else ⌊q⌋

/-- `create_rss_icon(size, is_dark_mode)` from `generate_icons.py`: blue (or
white) RSS glyph — a center dot and three concentric arcs from −45° to
225° — over a white (or dark-gray) full-canvas background rectangle.  The
source also computes `padding` and the four `outer_start/end` coordinates
but never uses them, so they have no counterpart here. -/
def createRssIcon (size : Nat) (is_dark_mode : Bool) : Image :=
  let img := newImage size size ⟨0, 0, 0, 0⟩
  let icon_color : RGBA := if is_dark_mode then ⟨255, 255, 255, 255⟩ else ⟨33, 150, 243, 255⟩
  let bg_color : RGBA := if is_dark_mode then ⟨30, 30, 30, 255⟩ else ⟨255, 255, 255, 255⟩
  let s : ℚ := size
  let img := drawRectangle img 0 0 s s bg_color
  let center_x := s / 2
  let center_y := s / 2
  let circle_radius := s * (8 / 100)
  let img := drawEllipse img (center_x - circle_radius) (center_y - circle_radius)
    (center_x + circle_radius) (center_y + circle_radius) icon_color
  let arc_start_angle : Int := -45
  let arc_end_angle : Int := 225
  let line_width : ℤ := max 2 (pyInt (s * (6 / 100)))
  let outer_radius := s * (35 / 100)
  let img := drawArc img (center_x - outer_radius) (center_y - outer_radius)
    (center_x + outer_radius) (center_y + outer_radius) arc_start_angle arc_end_angle
    (line_width : ℚ) icon_color
  let middle_radius := s * (25 / 100)
  let img := drawArc img (center_x - middle_radius) (center_y - middle_radius)
    (center_x + middle_radius) (center_y + middle_radius) arc_start_angle arc_end_angle
    (line_width : ℚ) icon_color
  let inner_radius := s * (15 / 100)
  let img := drawArc img (center_x - inner_radius) (center_y - inner_radius)
    (center_x + inner_radius) (center_y + inner_radius) arc_start_angle arc_end_angle
    (line_width : ℚ) icon_color
  img

/-- `create_icon(size, is_dark)` from `assets/icon/create_icon.py`: book
shape with page lines plus a small RSS symbol.  Notes on the source:
`secondary_color` is computed but never drawn with; the preview ellipse has
`fill=None, outline=None` in light mode and so draws nothing; `size // 1.5`
is the floor `2*size/3`; the two wave/dot loops are unrolled here in their
iteration order. -/
def createIcon (size : Nat) (is_dark : Bool) : Image :=
  let img := newImage size size ⟨0, 0, 0, 0⟩
  let primary_color : RGBA := if is_dark then ⟨255, 255, 255, 255⟩ else ⟨66, 133, 244, 255⟩
  let secondary_color : RGBA := if is_dark then ⟨200, 200, 200, 255⟩ else ⟨25, 118, 210, 255⟩
  let bg_color : RGBA := if is_dark then ⟨30, 30, 30, 255⟩ else ⟨255, 255, 255, 255⟩
  let margin : ℤ := (size : ℤ) / 10
  let img := if is_dark then
      drawEllipse img (margin : ℚ) (margin : ℚ) (((size : ℤ) - margin : ℤ) : ℚ)
        (((size : ℤ) - margin : ℤ) : ℚ) bg_color
    else img
  let book_width : ℤ := (size : ℤ) / 2
  let book_height : ℤ := 2 * (size : ℤ) / 3
  let book_x : ℤ := ((size : ℤ) - book_width) / 2
  let book_y : ℤ := (size : ℤ) / 4
  let img := drawRectangle img (book_x : ℚ) (book_y : ℚ) ((book_x + book_width : ℤ) : ℚ)
    ((book_y + book_height : ℤ) : ℚ) primary_color
  let page_color : RGBA := if is_dark then ⟨50, 50, 50, 200⟩ else ⟨255, 255, 255, 200⟩
  let img := drawRectangle img ((book_x + 5 : ℤ) : ℚ) ((book_y + 5 : ℤ) : ℚ)
    ((book_x + book_width - 5 : ℤ) : ℚ) ((book_y + book_height - 5 : ℤ) : ℚ) page_color
  let line_color : RGBA := if is_dark then ⟨200, 200, 200, 150⟩ else ⟨100, 100, 100, 150⟩
  let img := ([3, 4, 5, 6, 7] : List ℤ).foldl (fun im i =>
    drawLine im ((book_x + 15 : ℤ) : ℚ) ((book_y + book_height / 10 * i : ℤ) : ℚ)
      ((book_x + book_width - 15 : ℤ) : ℚ) ((book_y + book_height / 10 * i : ℤ) : ℚ)
      line_color 2) img
  let rss_x : ℤ := book_x + book_width / 2
  let rss_y : ℤ := book_y + book_height + (size : ℤ) / 8
  let rss_size : ℤ := (size : ℤ) / 6
  let arc_w : ℚ := (((size : ℤ) / 50 : ℤ) : ℚ)
  let r0 : ℚ := (rss_size : ℚ) * (3 / 10)
  let img := drawArc img ((rss_x : ℚ) - r0) ((rss_y : ℚ) - r0) ((rss_x : ℚ) + r0)
    ((rss_y : ℚ) + r0) 45 135 arc_w primary_color
  let dot_size : ℤ := (size : ℤ) / 40
  let img := drawEllipse img ((rss_x : ℚ) - (dot_size : ℚ)) ((rss_y : ℚ) - (dot_size : ℚ))
    ((rss_x : ℚ) + (dot_size : ℚ)) ((rss_y : ℚ) + (dot_size : ℚ)) primary_color
  let r1 : ℚ := (rss_size : ℚ) * (5 / 10)
  let img := drawArc img ((rss_x : ℚ) - r1) ((rss_y : ℚ) - r1) ((rss_x : ℚ) + r1)
    ((rss_y : ℚ) + r1) 45 135 arc_w primary_color
  let r2 : ℚ := (rss_size : ℚ) * (7 / 10)
  let img := drawArc img ((rss_x : ℚ) - r2) ((rss_y : ℚ) - r2) ((rss_x : ℚ) + r2)
    ((rss_y : ℚ) + r2) 45 135 arc_w primary_color
  img

/-- Errors the scripts can raise while reading `Contents.json`: they carry
the offending path, and nothing in the scripts catches them. -/
inductive PyErr where
  | fileNotFound : String → PyErr
  | jsonDecodeError : String → PyErr
deriving DecidableEq

/-- One element of the `images` array of a `Contents.json` manifest: its
optional `filename` field (the only one the script reads) plus the remaining
key/value pairs, which the script never touches. -/
structure ManifestEntry where
  filename : Option String
  otherFields : List (String × String)
deriving DecidableEq

/-- A parsed `Contents.json`: the `images` array plus the remaining fields. -/
structure Manifest where
  images : List ManifestEntry
  otherFields : List (String × String)
deriving DecidableEq

/-- Content of a file on disk. -/
inductive FileData where
  | png : Image → FileData
  | manifest : Manifest → FileData
  | raw : String → FileData

/-- The file system: a map from paths to file contents. -/
abbrev FS : Type := String → Option FileData

/-- Write (create or overwrite) one file. -/
def fsWrite (fs : FS) (p : String) (d : FileData) : FS :=
  fun q => if q = p then some d else fs q

/-- The empty file system. -/
def emptyFS : FS := fun _ => none

/-- `rep` interleaved before each character and at the end: Python's
`s.replace('', rep)`. -/
def strInterleave (rep : List Char) : List Char → List Char
  | [] => rep
  | c :: cs => rep ++ c :: strInterleave rep cs

/-- Replace every non-overlapping occurrence of `pat` (nonempty) by `rep`,
left to right.  The fuel is consumed once per produced character position
and starts at the list length, so it never runs out. -/
def replaceFuel (pat rep : List Char) : Nat → List Char → List Char
  | _, [] => []
  | 0, l => l
  | fuel + 1, c :: cs =>
    if pat.isPrefixOf (c :: cs) then
      rep ++ replaceFuel pat rep fuel (List.drop (pat.length - 1) cs)
    else c :: replaceFuel pat rep fuel cs

/-- Python's `s.replace(pat, rep)`. -/
def pyReplace (s pat rep : String) : String :=
  if pat.isEmpty then ⟨strInterleave rep.data s.data⟩
  else ⟨replaceFuel pat.data rep.data s.data.length s.data⟩

/-- Perform a list of file writes in order, also returning the write log. -/
def applyWrites (fs : FS) (ws : List (String × FileData)) : FS × List (String × FileData) :=
  ws.foldl (fun acc w => (fsWrite acc.1 w.1 w.2, acc.2 ++ [w])) (fs, [])

/-- The `android_sizes` table of `generate_android_icons`. -/
def androidSizes : List (String × Nat) :=
  [("mipmap-mdpi", 48), ("mipmap-hdpi", 72), ("mipmap-xhdpi", 96),
    ("mipmap-xxhdpi", 144), ("mipmap-xxxhdpi", 192)]

/-- `base_path` of `generate_android_icons`. -/
def androidBasePath : String := "android/app/src/main/res"

/-- The light-mode saves of `generate_android_icons`, in loop order. -/
def androidLightWrites : List (String × FileData) :=
  androidSizes.map (fun fsz =>
    (androidBasePath ++ "/" ++ fsz.1 ++ "/ic_launcher.png",
      FileData.png (createRssIcon fsz.2 false)))

/-- The dark-mode saves of `generate_android_icons`: the folder name comes
from `folder.replace('mipmap', 'mipmap-night')`. -/
def androidDarkWrites : List (String × FileData) :=
  androidSizes.map (fun fsz =>
    (androidBasePath ++ "/" ++ pyReplace fsz.1 "mipmap" "mipmap-night" ++ "/ic_launcher.png",
      FileData.png (createRssIcon fsz.2 true)))

/-- `generate_android_icons()`: ten saves, no reads.  (`os.makedirs` only
touches directories, which the model does not track.) -/
def generateAndroidIcons (fs : FS) : FS × List (String × FileData) :=
  applyWrites fs (androidLightWrites ++ androidDarkWrites)

/-- The `ios_sizes` table of `generate_ios_icons`. -/
def iosSizes : List (String × Nat) :=
  [("Icon-App-20x20@1x.png", 20), ("Icon-App-20x20@2x.png", 40), ("Icon-App-20x20@3x.png", 60),
    ("Icon-App-29x29@1x.png", 29), ("Icon-App-29x29@2x.png", 58), ("Icon-App-29x29@3x.png", 87),
    ("Icon-App-40x40@1x.png", 40), ("Icon-App-40x40@2x.png", 80), ("Icon-App-40x40@3x.png", 120),
    ("Icon-App-60x60@2x.png", 120), ("Icon-App-60x60@3x.png", 180),
    ("Icon-App-76x76@1x.png", 76), ("Icon-App-76x76@2x.png", 152),
    ("Icon-App-83.5x83.5@2x.png", 167), ("Icon-App-1024x1024@1x.png", 1024)]

/-- `base_path` of `generate_ios_icons` (the light appiconset). -/
def iosBasePath : String := "ios/Runner/Assets.xcassets/AppIcon.appiconset"

/-- `dark_base_path` of `generate_ios_icons` (the dark appiconset). -/
def iosDarkBasePath : String := "ios/Runner/Assets.xcassets/AppIcon-Dark.appiconset"

/-- The path of the light appiconset's `Contents.json`. -/
def iosContentsPath : String := iosBasePath ++ "/Contents.json"

/-- The light-mode saves of `generate_ios_icons`, in loop order. -/
def iosLightWrites : List (String × FileData) :=
  iosSizes.map (fun p =>
    (iosBasePath ++ "/" ++ p.1, FileData.png (createRssIcon p.2 false)))

/-- The dark-mode saves of `generate_ios_icons`: the file name comes from
`filename.replace('.png', '-dark.png')`. -/
def iosDarkWrites : List (String × FileData) :=
  iosSizes.map (fun p =>
    (iosDarkBasePath ++ "/" ++ pyReplace p.1 ".png" "-dark.png",
      FileData.png (createRssIcon p.2 true)))

/-- The body of the `for image in contents['images']` loop of
`update_ios_contents_json`: read the entry's `filename` (defaulting to the
empty string, which is falsy), and if the corresponding dark-variant file
exists, `shutil.copy` it next to the light icons under the `~dark` name.
The `if 'appearances' not in image: pass` block of the source has no effect
and no counterpart here; `light_file_path` is computed but never used. -/
def entryStep (light_path dark_path : String) (acc : FS × List (String × FileData))
    (image : ManifestEntry) : FS × List (String × FileData) :=
  let filename := image.filename.getD ""
  if filename ≠ "" then
    let dark_filename := pyReplace filename ".png" "-dark.png"
    let dark_file_path := dark_path ++ "/" ++ dark_filename
    match acc.1 dark_file_path with
    | some d =>
      let variant_filename := pyReplace filename ".png" "~dark.png"
      (fsWrite acc.1 (light_path ++ "/" ++ variant_filename) d,
        acc.2 ++ [(light_path ++ "/" ++ variant_filename, d)])
    | none => acc
  else acc

/-- `update_ios_contents_json(light_path, dark_path)`: loads
`{light_path}/Contents.json` (propagating the error if that fails), runs the
copy loop over its `images` entries, prints a note, and — notably — never
writes the parsed JSON back. -/
def updateIosContentsJson (light_path dark_path : String) (fs : FS) :
    Except PyErr (FS × List (String × FileData)) :=
  match fs (light_path ++ "/Contents.json") with
  | some (FileData.manifest contents) =>
    Except.ok (contents.images.foldl (entryStep light_path dark_path) (fs, []))
  | some _ => Except.error (PyErr.jsonDecodeError (light_path ++ "/Contents.json"))
  | none => Except.error (PyErr.fileNotFound (light_path ++ "/Contents.json"))

/-- `generate_ios_icons()`: save the fifteen light and fifteen dark icons,
then run `update_ios_contents_json(base_path, dark_base_path)`. -/
def generateIosIcons (fs : FS) : Except PyErr (FS × List (String × FileData)) :=
  let saved := applyWrites fs (iosLightWrites ++ iosDarkWrites)
  match updateIosContentsJson iosBasePath iosDarkBasePath saved.1 with
  | Except.ok r => Except.ok (r.1, saved.2 ++ r.2)
  | Except.error e => Except.error e

/-- The three saves of `main()` in `create_icon.py`, in order. -/
def createIconMainWrites : List (String × FileData) :=
  [("app_icon_foreground.png", FileData.png (createIcon 1024 false)),
    ("app_icon_foreground_dark.png", FileData.png (createIcon 1024 true)),
    ("app_icon.png", FileData.png (createIcon 1024 false))]

/-- `main()` of `create_icon.py`. -/
def createIconMain (fs : FS) : FS × List (String × FileData) :=
  applyWrites fs createIconMainWrites

/-- Final file system of a run, empty if the run raised. -/
def resultFs (r : Except PyErr (FS × List (String × FileData))) : FS :=
  match r with
  | Except.ok x => x.1
  | Except.error _ => emptyFS

/-- Paths written by a run, in order; empty if the run raised. -/
def logPaths (r : Except PyErr (FS × List (String × FileData))) : List String :=
  match r with
  | Except.ok x => x.2.map Prod.fst
  | Except.error _ => []

/-- Whether the final file system of a run has a file at `p`. -/
def fsHasAt (r : Except PyErr (FS × List (String × FileData))) (p : String) : Bool :=
  (resultFs r p).isSome

/-- The ten Android output paths named by the spec. -/
def claimedAndroidPaths : List String :=
  ["android/app/src/main/res/mipmap-mdpi/ic_launcher.png",
    "android/app/src/main/res/mipmap-hdpi/ic_launcher.png",
    "android/app/src/main/res/mipmap-xhdpi/ic_launcher.png",
    "android/app/src/main/res/mipmap-xxhdpi/ic_launcher.png",
    "android/app/src/main/res/mipmap-xxxhdpi/ic_launcher.png",
    "android/app/src/main/res/mipmap-night-mdpi/ic_launcher.png",
    "android/app/src/main/res/mipmap-night-hdpi/ic_launcher.png",
    "android/app/src/main/res/mipmap-night-xhdpi/ic_launcher.png",
    "android/app/src/main/res/mipmap-night-xxhdpi/ic_launcher.png",
    "android/app/src/main/res/mipmap-night-xxxhdpi/ic_launcher.png"]

/-- The thirty iOS save paths named by the spec (fifteen light, fifteen
dark). -/
def claimedIosSavePaths : List String :=
  ["ios/Runner/Assets.xcassets/AppIcon.appiconset/Icon-App-20x20@1x.png",
    "ios/Runner/Assets.xcassets/AppIcon.appiconset/Icon-App-20x20@2x.png",
    "ios/Runner/Assets.xcassets/AppIcon.appiconset/Icon-App-20x20@3x.png",
    "ios/Runner/Assets.xcassets/AppIcon.appiconset/Icon-App-29x29@1x.png",
    "ios/Runner/Assets.xcassets/AppIcon.appiconset/Icon-App-29x29@2x.png",
    "ios/Runner/Assets.xcassets/AppIcon.appiconset/Icon-App-29x29@3x.png",
    "ios/Runner/Assets.xcassets/AppIcon.appiconset/Icon-App-40x40@1x.png",
    "ios/Runner/Assets.xcassets/AppIcon.appiconset/Icon-App-40x40@2x.png",
    "ios/Runner/Assets.xcassets/AppIcon.appiconset/Icon-App-40x40@3x.png",
    "ios/Runner/Assets.xcassets/AppIcon.appiconset/Icon-App-60x60@2x.png",
    "ios/Runner/Assets.xcassets/AppIcon.appiconset/Icon-App-60x60@3x.png",
    "ios/Runner/Assets.xcassets/AppIcon.appiconset/Icon-App-76x76@1x.png",
    "ios/Runner/Assets.xcassets/AppIcon.appiconset/Icon-App-76x76@2x.png",
    "ios/Runner/Assets.xcassets/AppIcon.appiconset/Icon-App-83.5x83.5@2x.png",
    "ios/Runner/Assets.xcassets/AppIcon.appiconset/Icon-App-1024x1024@1x.png",
    "ios/Runner/Assets.xcassets/AppIcon-Dark.appiconset/Icon-App-20x20@1x-dark.png",
    "ios/Runner/Assets.xcassets/AppIcon-Dark.appiconset/Icon-App-20x20@2x-dark.png",
    "ios/Runner/Assets.xcassets/AppIcon-Dark.appiconset/Icon-App-20x20@3x-dark.png",
    "ios/Runner/Assets.xcassets/AppIcon-Dark.appiconset/Icon-App-29x29@1x-dark.png",
    "ios/Runner/Assets.xcassets/AppIcon-Dark.appiconset/Icon-App-29x29@2x-dark.png",
    "ios/Runner/Assets.xcassets/AppIcon-Dark.appiconset/Icon-App-29x29@3x-dark.png",
    "ios/Runner/Assets.xcassets/AppIcon-Dark.appiconset/Icon-App-40x40@1x-dark.png",
    "ios/Runner/Assets.xcassets/AppIcon-Dark.appiconset/Icon-App-40x40@2x-dark.png",
    "ios/Runner/Assets.xcassets/AppIcon-Dark.appiconset/Icon-App-40x40@3x-dark.png",
    "ios/Runner/Assets.xcassets/AppIcon-Dark.appiconset/Icon-App-60x60@2x-dark.png",
    "ios/Runner/Assets.xcassets/AppIcon-Dark.appiconset/Icon-App-60x60@3x-dark.png",
    "ios/Runner/Assets.xcassets/AppIcon-Dark.appiconset/Icon-App-76x76@1x-dark.png",
    "ios/Runner/Assets.xcassets/AppIcon-Dark.appiconset/Icon-App-76x76@2x-dark.png",
    "ios/Runner/Assets.xcassets/AppIcon-Dark.appiconset/Icon-App-83.5x83.5@2x-dark.png",
    "ios/Runner/Assets.xcassets/AppIcon-Dark.appiconset/Icon-App-1024x1024@1x-dark.png"]

/-- A manifest whose `images` array holds the single 20×20\@1x entry. -/
def mOneEntry : Manifest :=
  ⟨[⟨some "Icon-App-20x20@1x.png", []⟩], []⟩

/-- A file system holding only a light `Contents.json` with that single
entry. -/
def fsOneEntry : FS :=
  fun p => if p = iosContentsPath then some (FileData.manifest mOneEntry) else none

/-- A manifest whose single `images` entry names `Contents.json` itself as
its `filename`. -/
def mClobber : Manifest :=
  ⟨[⟨some "Contents.json", []⟩], []⟩

/-- A file system where the light `Contents.json` is `mClobber` and the dark
appiconset also holds a file named `Contents.json` (as every real
`.appiconset` does). -/
def fsClobber : FS :=
  fun p =>
    if p = iosContentsPath then some (FileData.manifest mClobber)
    else if p = iosDarkBasePath ++ "/Contents.json" then
      some (FileData.raw "dark appiconset manifest")
    else none

/-- A manifest whose entries are all skipped by the copy loop: no
`filename`, an empty `filename`, and a `filename` whose dark variant is
absent. -/
def mSkip : Manifest :=
  ⟨[⟨none, [("idiom", "iphone")]⟩, ⟨some "", []⟩, ⟨some "a.png", []⟩], []⟩

/-- A file system holding only a light `Contents.json` equal to `mSkip`. -/
def fsSkip : FS :=
  fun p => if p = iosContentsPath then some (FileData.manifest mSkip) else none

/-- The dark-loop save path of the 20×20\@1x icon. -/
def darkSavePath20 : String := iosDarkBasePath ++ "/Icon-App-20x20@1x-dark.png"

/-- The `~dark` copy path the update step produces for the 20×20\@1x entry. -/
def variantPath20 : String := iosBasePath ++ "/Icon-App-20x20@1x~dark.png"

/-! Helper lemmas, shared across the claim theorems. -/

/-- Alpha of an `ite` of two alpha-255 colors. -/
lemma alpha_ite {c : Prop} [Decidable c] {p q : RGBA} (hp : p.a = 255) (hq : q.a = 255) :
    (ite c p q).a = 255 := by
  by_cases h : c <;> simp [h, hp, hq]

/-- The write log of the save fold is the write list itself. -/
lemma writesFold_log (ws : List (String × FileData)) :
    ∀ (fs : FS) (l : List (String × FileData)),
      (ws.foldl (fun acc w => (fsWrite acc.1 w.1 w.2, acc.2 ++ [w])) (fs, l)).2 = l ++ ws := by
  induction ws with
  | nil => intro fs l; simp
  | cons w ws ih =>
    intro fs l
    simpa using ih (fsWrite fs w.1 w.2) (l ++ [w])

/-- `applyWrites` logs exactly its write list. -/
lemma applyWrites_log (fs : FS) (ws : List (String × FileData)) :
    (applyWrites fs ws).2 = ws := by
  simpa using writesFold_log ws fs []

/-- The save fold leaves untouched every path it does not write. -/
lemma writesFold_fs_of_not_mem (ws : List (String × FileData)) (p : String)
    (hp : p ∉ ws.map Prod.fst) :
    ∀ (fs : FS) (l : List (String × FileData)),
      (ws.foldl (fun acc w => (fsWrite acc.1 w.1 w.2, acc.2 ++ [w])) (fs, l)).1 p = fs p := by
  induction ws with
  | nil => intro fs l; rfl
  | cons w ws ih =>
    intro fs l
    simp only [List.map_cons, List.mem_cons] at hp
    push_neg at hp
    rw [List.foldl_cons, ih hp.2 (fsWrite fs w.1 w.2) (l ++ [w])]
    simp [fsWrite, hp.1]

/-- `applyWrites` leaves untouched every path outside its write list. -/
lemma applyWrites_fs_of_not_mem (fs : FS) (ws : List (String × FileData)) (p : String)
    (hp : p ∉ ws.map Prod.fst) : (applyWrites fs ws).1 p = fs p :=
  writesFold_fs_of_not_mem ws p hp fs []

/-- When the manifest loads, `update_ios_contents_json` is the copy fold. -/
lemma update_of_read (lp dp : String) (fs : FS) (m : Manifest)
    (h : fs (lp ++ "/Contents.json") = some (FileData.manifest m)) :
    updateIosContentsJson lp dp fs = Except.ok (m.images.foldl (entryStep lp dp) (fs, [])) := by
  unfold updateIosContentsJson
  rw [h]

/-- A missing `Contents.json` raises. -/
lemma update_read_none (lp dp : String) (fs : FS) (h : fs (lp ++ "/Contents.json") = none) :
    updateIosContentsJson lp dp fs = Except.error (PyErr.fileNotFound (lp ++ "/Contents.json")) := by
  unfold updateIosContentsJson
  rw [h]

/-- A non-JSON `Contents.json` raises. -/
lemma update_read_raw (lp dp : String) (fs : FS) (s : String)
    (h : fs (lp ++ "/Contents.json") = some (FileData.raw s)) :
    updateIosContentsJson lp dp fs = Except.error (PyErr.jsonDecodeError (lp ++ "/Contents.json")) := by
  unfold updateIosContentsJson
  rw [h]

/-- One copy-loop entry leaves untouched every path it cannot name. -/
lemma entryStep_fs_preserve (lp dp q : String) (acc : FS × List (String × FileData))
    (e : ManifestEntry)
    (hq : ∀ f, e.filename = some f → lp ++ "/" ++ pyReplace f ".png" "~dark.png" ≠ q) :
    (entryStep lp dp acc e).1 q = acc.1 q := by
  unfold entryStep
  rcases he : e.filename with _ | f
  · simp [he]
  · simp only [he, Option.getD_some]
    by_cases hf : f = ""
    · simp [hf]
    · simp only [ne_eq, hf, not_false_eq_true, if_true]
      rcases hd : acc.1 (dp ++ "/" ++ pyReplace f ".png" "-dark.png") with _ | d
      · simp [hd]
      · simp only [hd, fsWrite]
        rw [if_neg (Ne.symm (hq f he))]

/-- The copy loop leaves untouched every path none of its entries can name. -/
lemma entryFold_fs_preserve (lp dp q : String) (entries : List ManifestEntry)
    (hq : ∀ e ∈ entries, ∀ f, e.filename = some f →
      lp ++ "/" ++ pyReplace f ".png" "~dark.png" ≠ q) :
    ∀ acc : FS × List (String × FileData),
      (entries.foldl (entryStep lp dp) acc).1 q = acc.1 q := by
  induction entries with
  | nil => intro acc; rfl
  | cons e es ih =>
    intro acc
    rw [List.foldl_cons,
      ih (fun e' he' => hq e' (List.mem_cons_of_mem e he')) (entryStep lp dp acc e),
      entryStep_fs_preserve lp dp q acc e (hq e (List.mem_cons_self e es))]

/-- Pair-form restatement of `entryFold_fs_preserve`, matching applications
whose accumulator is a literal pair. -/
lemma entryFold_fs_preserve_pair (lp dp q : String) (entries : List ManifestEntry)
    (hq : ∀ e ∈ entries, ∀ f, e.filename = some f →
      lp ++ "/" ++ pyReplace f ".png" "~dark.png" ≠ q)
    (f0 : FS) (l0 : List (String × FileData)) :
    (entries.foldl (entryStep lp dp) (f0, l0)).1 q = f0 q :=
  entryFold_fs_preserve lp dp q entries hq (f0, l0)

/-- One copy-loop entry either does nothing or performs exactly one `~dark`
copy derived from its `filename`. -/
lemma entryStep_log (lp dp : String) (acc : FS × List (String × FileData)) (e : ManifestEntry) :
    (entryStep lp dp acc e).2 = acc.2 ∧ (entryStep lp dp acc e).1 = acc.1 ∨
      ∃ f d, e.filename = some f ∧
        entryStep lp dp acc e =
          (fsWrite acc.1 (lp ++ "/" ++ pyReplace f ".png" "~dark.png") d,
            acc.2 ++ [(lp ++ "/" ++ pyReplace f ".png" "~dark.png", d)]) := by
  unfold entryStep
  rcases he : e.filename with _ | f
  · simp [he]
  · simp only [he, Option.getD_some]
    by_cases hf : f = ""
    · simp [hf]
    · simp only [ne_eq, hf, not_false_eq_true, if_true]
      rcases hd : acc.1 (dp ++ "/" ++ pyReplace f ".png" "-dark.png") with _ | d
      · simp [hd]
      · exact Or.inr ⟨f, d, rfl, by simp [hd]⟩

/-- Every write the copy loop appends to the log is a `~dark` copy named by
one of its entries. -/
lemma entryFold_log (lp dp : String) (entries : List ManifestEntry) :
    ∀ acc : FS × List (String × FileData),
      ∃ extra, (entries.foldl (entryStep lp dp) acc).2 = acc.2 ++ extra ∧
        ∀ pd ∈ extra, ∃ e ∈ entries, ∃ f, e.filename = some f ∧
          pd.1 = lp ++ "/" ++ pyReplace f ".png" "~dark.png" := by
  induction entries with
  | nil => intro acc; exact ⟨[], by simp, by simp⟩
  | cons e es ih =>
    intro acc
    obtain ⟨extra, hlog, hprop⟩ := ih (entryStep lp dp acc e)
    rcases entryStep_log lp dp acc e with ⟨h2, -⟩ | ⟨f, d, hf, hstep⟩
    · refine ⟨extra, by rw [List.foldl_cons, hlog, h2], ?_⟩
      intro pd hpd
      obtain ⟨e', he', hrest⟩ := hprop pd hpd
      exact ⟨e', List.mem_cons_of_mem e he', hrest⟩
    · refine ⟨(lp ++ "/" ++ pyReplace f ".png" "~dark.png", d) :: extra, ?_, ?_⟩
      · rw [List.foldl_cons, hlog, hstep]
        simp
      · intro pd hpd
        rcases List.mem_cons.mp hpd with rfl | hpd2
        · exact ⟨e, List.mem_cons_self e es, f, hf, rfl⟩
        · obtain ⟨e', he', hrest⟩ := hprop pd hpd2
          exact ⟨e', List.mem_cons_of_mem e he', hrest⟩

/-- If every entry is skipped (falsy `filename`, or dark variant absent),
the copy loop is the identity. -/
lemma entryFold_skip (lp dp : String) (fs : FS) (entries : List ManifestEntry)
    (hskip : ∀ e ∈ entries, e.filename.getD "" = "" ∨
      fs (dp ++ "/" ++ pyReplace (e.filename.getD "") ".png" "-dark.png") = none) :
    ∀ l : List (String × FileData),
      entries.foldl (entryStep lp dp) (fs, l) = (fs, l) := by
  induction entries with
  | nil => intro l; rfl
  | cons e es ih =>
    intro l
    have hstep : entryStep lp dp (fs, l) e = (fs, l) := by
      unfold entryStep
      by_cases hg : e.filename.getD "" = ""
      · simp [hg]
      · rcases hskip e (List.mem_cons_self e es) with hg2 | hd
        · exact absurd hg2 hg
        · simp [hg, hd]
    rw [List.foldl_cons, hstep, ih (fun e' he' => hskip e' (List.mem_cons_of_mem e he'))]

/-- Writes to distinct paths commute. -/
lemma fsWrite_comm (fs : FS) (p1 p2 : String) (d1 d2 : FileData) (hne : p1 ≠ p2) :
    fsWrite (fsWrite fs p1 d1) p2 d2 = fsWrite (fsWrite fs p2 d2) p1 d1 := by
  funext q
  simp only [fsWrite]
  by_cases h1 : q = p1
  · subst h1
    rw [if_neg hne, if_pos rfl, if_pos rfl]
  · by_cases h2 : q = p2 <;> simp [h1, h2, Ne.symm hne]

/-- When the manifest loads, a whole `generate_ios_icons` run is the thirty
saves followed by the copy fold. -/
lemma generateIos_eq (fs : FS) (m : Manifest)
    (hm : fs (iosBasePath ++ "/Contents.json") = some (FileData.manifest m)) :
    generateIosIcons fs = Except.ok
      ((m.images.foldl (entryStep iosBasePath iosDarkBasePath)
          ((applyWrites fs (iosLightWrites ++ iosDarkWrites)).1, [])).1,
        (applyWrites fs (iosLightWrites ++ iosDarkWrites)).2 ++
          (m.images.foldl (entryStep iosBasePath iosDarkBasePath)
            ((applyWrites fs (iosLightWrites ++ iosDarkWrites)).1, [])).2) := by
  have hpres : (applyWrites fs (iosLightWrites ++ iosDarkWrites)).1
      (iosBasePath ++ "/Contents.json") = some (FileData.manifest m) :=
    (applyWrites_fs_of_not_mem fs _ _ (by decide)).trans hm
  simp only [generateIosIcons]
  rw [update_of_read iosBasePath iosDarkBasePath _ m hpres]

/-- On a positive canvas, the corner pixel `(0, 0)` of `create_rss_icon` is
the background color: the center dot and the three arcs all stay within
`0.35·size` of the center, while the corner is `≈ 0.707·size` away. -/
lemma rssIcon_corner (s : Nat) (d : Bool) (hs : 0 < s) :
    (createRssIcon s d).pixel 0 0 =
      (if d then (⟨30, 30, 30, 255⟩ : RGBA) else ⟨255, 255, 255, 255⟩) := by
  have hq : (0 : ℚ) < (s : ℚ) := by exact_mod_cast hs
  have hq4 : (0 : ℚ) < (s : ℚ) ^ 4 := by positivity
  cases d <;>
    (simp only [createRssIcon, drawRectangle, drawEllipse, drawArc, drawPred, newImage,
       Nat.cast_zero, Bool.false_eq_true, if_false, if_true]
     split
     · rename_i h
       obtain ⟨-, -, hE, -, -⟩ := h
       simp only [inEllipse] at hE
       exfalso
       nlinarith [hq, hq4]
     · split
       · rename_i h
         obtain ⟨-, -, hE, -, -⟩ := h
         simp only [inEllipse] at hE
         exfalso
         nlinarith [hq, hq4]
       · split
         · rename_i h
           obtain ⟨-, -, hE, -, -⟩ := h
           simp only [inEllipse] at hE
           exfalso
           nlinarith [hq, hq4]
         · split
           · rename_i h
             obtain ⟨-, -, hE⟩ := h
             simp only [inEllipse] at hE
             exfalso
             nlinarith [hq, hq4]
           · split
             · rfl
             · rename_i h
               exact absurd ⟨hs, hs, le_refl 0, hq.le, le_refl 0, hq.le⟩ h)

/-! The claim theorems. -/

/-- Claim C1: for every positive size and every dark-mode flag, the image
returned by `create_rss_icon` — and likewise by `create_icon` — has width
and height both exactly equal to `size`.  Drawing primitives only repaint
pixels, so the dimensions installed by `Image.new` survive every draw call. -/
theorem claim_C1_icon_dimensions (s : Nat) (d : Bool) (hs : 0 < s) :
    ((createRssIcon s d).width = s ∧ (createRssIcon s d).height = s) ∧
      ((createIcon s d).width = s ∧ (createIcon s d).height = s) := by
  cases d <;> exact ⟨⟨rfl, rfl⟩, rfl, rfl⟩

/-- Witness for claim C1 at size 64, dark mode. -/
theorem claim_C1_icon_dimensions_witness :
    ((createRssIcon 64 true).width = 64 ∧ (createRssIcon 64 true).height = 64) ∧
      ((createIcon 64 true).width = 64 ∧ (createIcon 64 true).height = 64) :=
  claim_C1_icon_dimensions 64 true (by decide)

/-- Claim C2 (amended): `update_ios_contents_json` reads the manifest and
never serializes or writes the parsed JSON back — every write it performs is
a `~dark` file copy — so the on-disk `Contents.json` is unchanged provided
no `images` entry's `~dark` variant name is literally `Contents.json`
(which, since `"Contents.json"` contains no `".png"`, can only happen when
an entry's `filename` is itself `Contents.json`; in that contrived case the
`shutil.copy` overwrites the manifest, see the counterexample). -/
theorem claim_C2_update_never_writes_manifest (lp dp : String) (fs : FS) (m : Manifest)
    (hm : fs (lp ++ "/Contents.json") = some (FileData.manifest m))
    (hsafe : ∀ e ∈ m.images, ∀ f, e.filename = some f →
      lp ++ "/" ++ pyReplace f ".png" "~dark.png" ≠ lp ++ "/Contents.json") :
    ∃ r, updateIosContentsJson lp dp fs = Except.ok r ∧
      r.1 (lp ++ "/Contents.json") = some (FileData.manifest m) ∧
      ∀ pd ∈ r.2, ∃ e ∈ m.images, ∃ f, e.filename = some f ∧
        pd.1 = lp ++ "/" ++ pyReplace f ".png" "~dark.png" := by
  refine ⟨m.images.foldl (entryStep lp dp) (fs, []), update_of_read lp dp fs m hm, ?_, ?_⟩
  · rw [entryFold_fs_preserve lp dp _ m.images hsafe (fs, [])]
    exact hm
  · obtain ⟨extra, hlog, hprop⟩ := entryFold_log lp dp m.images (fs, [])
    intro pd hpd
    rw [hlog] at hpd
    simp only [List.nil_append] at hpd
    exact hprop pd hpd

/-- Counterexample to claim C2 as stated: when the manifest lists
`Contents.json` itself as an image `filename` and the dark appiconset holds
a file of that name (as every real `.appiconset` does), the copy step
overwrites the on-disk `Contents.json`, so its content after the run is not
the original manifest. -/
theorem claim_C2_counterexample :
    resultFs (updateIosContentsJson iosBasePath iosDarkBasePath fsClobber) iosContentsPath =
        some (FileData.raw "dark appiconset manifest") ∧
      fsClobber iosContentsPath = some (FileData.manifest mClobber) ∧
      FileData.raw "dark appiconset manifest" ≠ FileData.manifest mClobber :=
  ⟨rfl, rfl, by simp⟩

/-- Witness for claim C2 on the one-entry manifest. -/
theorem claim_C2_witness :
    ∃ r, updateIosContentsJson iosBasePath iosDarkBasePath fsOneEntry = Except.ok r ∧
      r.1 (iosBasePath ++ "/Contents.json") = some (FileData.manifest mOneEntry) ∧
      ∀ pd ∈ r.2, ∃ e ∈ mOneEntry.images, ∃ f, e.filename = some f ∧
        pd.1 = iosBasePath ++ "/" ++ pyReplace f ".png" "~dark.png" :=
  claim_C2_update_never_writes_manifest iosBasePath iosDarkBasePath fsOneEntry mOneEntry rfl
    (by
      intro e he f hf
      simp only [mOneEntry, List.mem_singleton] at he
      subst he
      cases hf
      decide)

/-- Claim C3 (amended): `generate_ios_icons` does not rewrite the manifest:
after a completed run the on-disk `Contents.json` content is exactly what it
was before (in particular the dark-variant filenames are not recorded in
it); the dark filenames only materialize as saved files in the dark
appiconset and as `~dark.png` copies next to the light icons.  The
hypothesis rules out the contrived self-referential manifest of the C2
counterexample. -/
theorem claim_C3_manifest_not_rewritten (fs : FS) (m : Manifest)
    (hm : fs (iosBasePath ++ "/Contents.json") = some (FileData.manifest m))
    (hsafe : ∀ e ∈ m.images, ∀ f, e.filename = some f →
      iosBasePath ++ "/" ++ pyReplace f ".png" "~dark.png" ≠ iosBasePath ++ "/Contents.json") :
    ∃ r, generateIosIcons fs = Except.ok r ∧
      r.1 (iosBasePath ++ "/Contents.json") = some (FileData.manifest m) := by
  refine ⟨_, generateIos_eq fs m hm, ?_⟩
  show (m.images.foldl (entryStep iosBasePath iosDarkBasePath)
    ((applyWrites fs (iosLightWrites ++ iosDarkWrites)).1, [])).1
      (iosBasePath ++ "/Contents.json") = some (FileData.manifest m)
  exact (entryFold_fs_preserve_pair iosBasePath iosDarkBasePath _ m.images hsafe
    (applyWrites fs (iosLightWrites ++ iosDarkWrites)).1 []).trans
    ((applyWrites_fs_of_not_mem fs _ _ (by decide)).trans hm)

/-- Counterexample to claim C3 as stated: starting from a file system whose
light `Contents.json` holds the one-entry manifest, `generate_ios_icons`
completes and the manifest file afterwards still holds exactly the original
manifest — it has not been rewritten with the dark-variant filenames. -/
theorem claim_C3_counterexample :
    resultFs (generateIosIcons fsOneEntry) iosContentsPath = some (FileData.manifest mOneEntry) :=
  rfl

/-- Witness for claim C3 on the one-entry manifest. -/
theorem claim_C3_witness :
    ∃ r, generateIosIcons fsOneEntry = Except.ok r ∧
      r.1 (iosBasePath ++ "/Contents.json") = some (FileData.manifest mOneEntry) :=
  claim_C3_manifest_not_rewritten fsOneEntry mOneEntry rfl
    (by
      intro e he f hf
      simp only [mOneEntry, List.mem_singleton] at he
      subst he
      cases hf
      decide)

/-- Claim C4 (amended): the Android loop writes exactly the ten
`ic_launcher.png` paths (five `mipmap-*`, five `mipmap-night-*`) and the two
iOS loops write exactly the thirty tabled icon files; but `generate_ios_icons`
additionally lets the manifest-patching step copy a `~dark.png` variant into
the light appiconset for each manifest entry naming an existing dark file,
so its write set is the thirty saves plus those copies rather than the
thirty saves alone. -/
theorem claim_C4_output_paths :
    (∀ fs : FS, ((generateAndroidIcons fs).2).map Prod.fst = claimedAndroidPaths) ∧
      ((iosLightWrites ++ iosDarkWrites).map Prod.fst = claimedIosSavePaths) ∧
      (∀ (fs : FS) (m : Manifest),
        fs (iosBasePath ++ "/Contents.json") = some (FileData.manifest m) →
        ∃ r extra, generateIosIcons fs = Except.ok r ∧
          r.2 = (iosLightWrites ++ iosDarkWrites) ++ extra ∧
          ∀ pd ∈ extra, ∃ e ∈ m.images, ∃ f, e.filename = some f ∧
            pd.1 = iosBasePath ++ "/" ++ pyReplace f ".png" "~dark.png") := by
  refine ⟨?_, by decide, ?_⟩
  · intro fs
    show ((applyWrites fs (androidLightWrites ++ androidDarkWrites)).2).map Prod.fst = _
    rw [applyWrites_log]
    decide
  · intro fs m hm
    obtain ⟨extra, hlog, hprop⟩ := entryFold_log iosBasePath iosDarkBasePath m.images
      ((applyWrites fs (iosLightWrites ++ iosDarkWrites)).1, [])
    refine ⟨_, extra, generateIos_eq fs m hm, ?_, hprop⟩
    show (applyWrites fs (iosLightWrites ++ iosDarkWrites)).2 ++
        (m.images.foldl (entryStep iosBasePath iosDarkBasePath)
          ((applyWrites fs (iosLightWrites ++ iosDarkWrites)).1, [])).2 =
      (iosLightWrites ++ iosDarkWrites) ++ extra
    rw [applyWrites_log, hlog, List.nil_append]

/-- Counterexample to claim C4 as stated: on the one-entry manifest,
`generate_ios_icons` writes the `~dark.png` copy path, which is outside the
forty paths the claim allows. -/
theorem claim_C4_counterexample :
    variantPath20 ∈ logPaths (generateIosIcons fsOneEntry) ∧
      variantPath20 ∉ claimedAndroidPaths ++ claimedIosSavePaths := by
  decide

/-- Witness for claim C4: the Android part on the empty file system and the
iOS part on the one-entry manifest. -/
theorem claim_C4_witness :
    ((generateAndroidIcons emptyFS).2).map Prod.fst = claimedAndroidPaths ∧
      (∃ r extra, generateIosIcons fsOneEntry = Except.ok r ∧
        r.2 = (iosLightWrites ++ iosDarkWrites) ++ extra ∧
        ∀ pd ∈ extra, ∃ e ∈ mOneEntry.images, ∃ f, e.filename = some f ∧
          pd.1 = iosBasePath ++ "/" ++ pyReplace f ".png" "~dark.png") :=
  ⟨claim_C4_output_paths.1 emptyFS, claim_C4_output_paths.2.2 fsOneEntry mOneEntry rfl⟩

/-- Claim C5: the generators are deterministic.  In the embedding the
drawing routines are pure functions of `(size, flag)` alone, so two runs on
identical arguments are identical images; and the save lists of the
generator entry points do not depend on the pre-existing file-system state
at all — behavior depends only on the constants in the source. -/
theorem claim_C5_deterministic :
    (∀ fs1 fs2 : FS, (generateAndroidIcons fs1).2 = (generateAndroidIcons fs2).2) ∧
      (∀ fs1 fs2 : FS, (createIconMain fs1).2 = (createIconMain fs2).2) ∧
      (∀ (s : Nat) (d : Bool),
        createRssIcon s d = createRssIcon s d ∧ createIcon s d = createIcon s d) ∧
      (∀ fs : FS, generateIosIcons fs = generateIosIcons fs) := by
  refine ⟨fun fs1 fs2 => ?_, fun fs1 fs2 => ?_, fun s d => ⟨rfl, rfl⟩, fun fs => rfl⟩
  · show (applyWrites fs1 (androidLightWrites ++ androidDarkWrites)).2 =
      (applyWrites fs2 (androidLightWrites ++ androidDarkWrites)).2
    rw [applyWrites_log, applyWrites_log]
  · show (applyWrites fs1 createIconMainWrites).2 = (applyWrites fs2 createIconMainWrites).2
    rw [applyWrites_log, applyWrites_log]

/-- Claim C6 (amended): for every positive size the light-mode and dark-mode
outputs of `create_rss_icon` differ — already at the corner pixel `(0, 0)`,
which is background-colored in both modes (white vs. dark gray).  At size 0
the two outputs coincide (see the counterexample), which is the only change
to the claim. -/
theorem claim_C6_light_dark_differ (s : Nat) (hs : 0 < s) :
    createRssIcon s false ≠ createRssIcon s true := by
  intro h
  have hp : (createRssIcon s false).pixel 0 0 = (createRssIcon s true).pixel 0 0 := by rw [h]
  rw [rssIcon_corner s false hs, rssIcon_corner s true hs] at hp
  simp at hp

/-- Counterexample to claim C6 as stated (\"for every size\"): at size 0 the
canvas has no pixels, every draw call is clipped away, and the light and
dark outputs are equal. -/
theorem claim_C6_counterexample : createRssIcon 0 false = createRssIcon 0 true := by
  refine Image.ext rfl rfl ?_
  funext x y
  simp [createRssIcon, drawRectangle, drawEllipse, drawArc, drawPred, newImage, Nat.not_lt_zero]

/-- Witness for claim C6 at size 1. -/
theorem claim_C6_witness : createRssIcon 1 false ≠ createRssIcon 1 true :=
  claim_C6_light_dark_differ 1 (by decide)

/-- Claim C7: the scripts contain no exception handling; in the embedding
the only fallible operation is loading `Contents.json`, and its error value
propagates unchanged out of `update_ios_contents_json` and out of
`generate_ios_icons` — it is neither caught nor translated. -/
theorem claim_C7_errors_propagate :
    (∀ fs : FS, fs (iosBasePath ++ "/Contents.json") = none →
      updateIosContentsJson iosBasePath iosDarkBasePath fs =
          Except.error (PyErr.fileNotFound (iosBasePath ++ "/Contents.json")) ∧
        generateIosIcons fs =
          Except.error (PyErr.fileNotFound (iosBasePath ++ "/Contents.json"))) ∧
      (∀ (fs : FS) (s : String),
        fs (iosBasePath ++ "/Contents.json") = some (FileData.raw s) →
        updateIosContentsJson iosBasePath iosDarkBasePath fs =
            Except.error (PyErr.jsonDecodeError (iosBasePath ++ "/Contents.json")) ∧
          generateIosIcons fs =
            Except.error (PyErr.jsonDecodeError (iosBasePath ++ "/Contents.json"))) := by
  constructor
  · intro fs h
    have hpres : (applyWrites fs (iosLightWrites ++ iosDarkWrites)).1
        (iosBasePath ++ "/Contents.json") = none :=
      (applyWrites_fs_of_not_mem fs _ _ (by decide)).trans h
    refine ⟨update_read_none iosBasePath iosDarkBasePath fs h, ?_⟩
    simp only [generateIosIcons]
    rw [update_read_none iosBasePath iosDarkBasePath _ hpres]
  · intro fs s h
    have hpres : (applyWrites fs (iosLightWrites ++ iosDarkWrites)).1
        (iosBasePath ++ "/Contents.json") = some (FileData.raw s) :=
      (applyWrites_fs_of_not_mem fs _ _ (by decide)).trans h
    refine ⟨update_read_raw iosBasePath iosDarkBasePath fs s h, ?_⟩
    simp only [generateIosIcons]
    rw [update_read_raw iosBasePath iosDarkBasePath _ s hpres]

/-- Witness for claim C7 on the empty file system. -/
theorem claim_C7_witness :
    updateIosContentsJson iosBasePath iosDarkBasePath emptyFS =
        Except.error (PyErr.fileNotFound (iosBasePath ++ "/Contents.json")) ∧
      generateIosIcons emptyFS =
        Except.error (PyErr.fileNotFound (iosBasePath ++ "/Contents.json")) :=
  claim_C7_errors_propagate.1 emptyFS rfl

/-- Claim C8 (amended): the icon save steps are indeed pairwise
order-insensitive — writes to distinct paths commute, and the forty save
paths of the two scripts' tables (and the three of `create_icon.py`) are
pairwise distinct — but the manifest-patching step is not order-insensitive
with respect to the dark-icon saves: its copies happen only for dark files
already present (see the counterexample). -/
theorem claim_C8_writes_commute :
    (∀ (fs : FS) (p1 p2 : String) (d1 d2 : FileData), p1 ≠ p2 →
      fsWrite (fsWrite fs p1 d1) p2 d2 = fsWrite (fsWrite fs p2 d2) p1 d1) ∧
      (((androidLightWrites ++ androidDarkWrites) ++ (iosLightWrites ++ iosDarkWrites)).map
        Prod.fst).Nodup ∧
      ((createIconMainWrites).map Prod.fst).Nodup :=
  ⟨fun fs p1 p2 d1 d2 h => fsWrite_comm fs p1 p2 d1 d2 h, by decide, by decide⟩

/-- Counterexample to claim C8 as stated: performing the dark-icon save and
then the manifest-patching step produces the `~dark` copy, while the
opposite order does not — the two orders yield different final file
systems. -/
theorem claim_C8_counterexample :
    fsHasAt (updateIosContentsJson iosBasePath iosDarkBasePath
        (fsWrite fsOneEntry darkSavePath20 (FileData.png (createRssIcon 20 true))))
      variantPath20 = true ∧
      fsHasAt ((updateIosContentsJson iosBasePath iosDarkBasePath fsOneEntry).map
          (fun x => (fsWrite x.1 darkSavePath20 (FileData.png (createRssIcon 20 true)), x.2)))
        variantPath20 = false :=
  ⟨rfl, rfl⟩

/-- Witness for claim C8: two concrete writes to distinct paths commute. -/
theorem claim_C8_witness :
    fsWrite (fsWrite emptyFS "a" (FileData.raw "x")) "b" (FileData.raw "y") =
      fsWrite (fsWrite emptyFS "b" (FileData.raw "y")) "a" (FileData.raw "x") :=
  claim_C8_writes_commute.1 emptyFS "a" "b" (FileData.raw "x") (FileData.raw "y") (by decide)

/-- Claim C9: for every positive size and both color modes, every in-bounds
pixel of the image returned by `create_rss_icon` is fully opaque: the
background rectangle `[(0, 0), (size, size)]` covers the whole canvas with
an alpha-255 color before any icon shape (all alpha-255 as well) is drawn
over it. -/
theorem claim_C9_fully_opaque (s : Nat) (d : Bool) (x y : Nat) (hs : 0 < s)
    (hx : x < s) (hy : y < s) : ((createRssIcon s d).pixel x y).a = 255 := by
  have hx0 : (0 : ℚ) ≤ (x : ℚ) := Nat.cast_nonneg x
  have hxs : (x : ℚ) ≤ (s : ℚ) := Nat.cast_le.mpr hx.le
  have hy0 : (0 : ℚ) ≤ (y : ℚ) := Nat.cast_nonneg y
  have hys : (y : ℚ) ≤ (s : ℚ) := Nat.cast_le.mpr hy.le
  have h5 : x < s ∧ y < s ∧ inClosedRect 0 0 (s : ℚ) (s : ℚ) (x : ℚ) (y : ℚ) :=
    ⟨hx, hy, hx0, hxs, hy0, hys⟩
  cases d <;>
    (simp only [createRssIcon, drawRectangle, drawEllipse, drawArc, drawPred, newImage]
     exact alpha_ite (by decide) (alpha_ite (by decide) (alpha_ite (by decide)
       (alpha_ite (by decide) (by rw [if_pos h5]; decide)))))

/-- Witness for claim C9 at size 3, pixel (1, 2), dark mode. -/
theorem claim_C9_fully_opaque_witness : ((createRssIcon 3 true).pixel 1 2).a = 255 :=
  claim_C9_fully_opaque 3 true 1 2 (by decide) (by decide) (by decide)

/-- Claim C10: the copy loop of `update_ios_contents_json` skips — without
raising and without copying anything — every manifest entry without a
`filename` key (the `get` default `''` is falsy) and every entry whose dark
variant file is absent (the `os.path.exists` guard), leaving the file system
untouched when all entries are of this kind. -/
theorem claim_C10_skips_entries (lp dp : String) (fs : FS) (m : Manifest)
    (hm : fs (lp ++ "/Contents.json") = some (FileData.manifest m))
    (hskip : ∀ e ∈ m.images, e.filename.getD "" = "" ∨
      fs (dp ++ "/" ++ pyReplace (e.filename.getD "") ".png" "-dark.png") = none) :
    updateIosContentsJson lp dp fs = Except.ok (fs, []) := by
  rw [update_of_read lp dp fs m hm, entryFold_skip lp dp fs m.images hskip []]

/-- Witness for claim C10: a manifest with a missing `filename`, an empty
`filename`, and a `filename` whose dark variant is absent. -/
theorem claim_C10_skips_entries_witness :
    updateIosContentsJson iosBasePath iosDarkBasePath fsSkip = Except.ok (fsSkip, []) :=
  claim_C10_skips_entries iosBasePath iosDarkBasePath fsSkip mSkip rfl
    (by
      intro e he
      simp only [mSkip, List.mem_cons, List.mem_singleton, List.not_mem_nil, or_false] at he
      rcases he with rfl | rfl | rfl
      · exact Or.inl rfl
      · exact Or.inl rfl
      · exact Or.inr rfl)
